import Mathlib

/-!
Shallow embedding of `src/source/blender/blenlib/intern/stack.c`, a chunked
stack (`BLI_StackImpl`).  The C structure holds two singly linked chains of
`StackChunk` nodes: the active chain rooted at the pointer `chunk_curr` and
the free chain rooted at `chunk_free`; every `next` pointer is only ever
assigned `nullptr`, the old head of the other chain, or left as the tail of
the chain it already belonged to, so both chains are finite and acyclic and
never share a node.  We therefore represent each chain as a Lean `List` of
chunks, head first: `chunk_curr = nullptr` is the empty list, and
`c->next = nullptr` is the singleton chain `[c]`.  Each chunk carries an
allocation id (`new StackChunk` hands out fresh ids) so that physical chunk
identity is observable.  `size_t` values are `Nat` with explicit `% 2 ^ 64`
wraparound where the C code can overflow or underflow.  A dereference of a
null chunk pointer is modelled as `Option.none`.
-/

namespace BlenderStack

/-- Number of values of the C type `size_t`: 2 ^ 64. -/
def USIZE : Nat := 18446744073709551616

/-- Largest `size_t` value, `SIZE_MAX` = 2 ^ 64 - 1. -/
def SIZE_MAX : Nat := 18446744073709551615

/-- Wrapping `size_t` increment `++n`. -/
def inc64 (n : Nat) : Nat := (n + 1) % USIZE

/-- Wrapping `size_t` decrement `--n` (also computes `n - 1` for constants). -/
def dec64 (n : Nat) : Nat := (n + SIZE_MAX) % USIZE

/-- One `StackChunk` (stack.c lines 11-17): `data` is the owned byte buffer
(`std::vector<char>` of length `elem_size * chunk_elem_max`, value-initialised
to zero); the `next` pointer is represented by the chunk's position in the
list that models its chain.  `id` is the allocation identity of the chunk:
`new StackChunk` creates a chunk with a fresh id. -/
structure Chunk where
  id : Nat
  data : List Nat
deriving DecidableEq

/-- The fields of `BLI_StackImpl` (stack.c lines 19-27).  `chunk_curr` and
`chunk_free` are the chains of chunks reachable from the C pointers of the
same names via `next`, head first (`[]` is the null pointer).  `next_id` is
the allocator's counter of fresh chunk identities. -/
structure StackState where
  chunk_curr : List Chunk
  chunk_free : List Chunk
  chunk_index : Nat
  chunk_elem_max : Nat
  elem_size : Nat
  elem_num : Nat
  next_id : Nat
deriving DecidableEq

/-- Constructor `BLI_StackImpl(elem_size, chunk_size)` (stack.c lines 28-34)
via the C wrapper `BLI_stack_new_ex` (lines 122-124; the `description`
argument is unused by the source and omitted here).  No argument validation:
`chunk_index` is the `size_t` value `chunk_size - 1`, which wraps to
`SIZE_MAX` when `chunk_size = 0`. -/
def BLI_stack_new_ex (elem_size chunk_size : Nat) : StackState :=
  { chunk_curr := []
    chunk_free := []
    chunk_index := dec64 chunk_size
    chunk_elem_max := chunk_size
    elem_size := elem_size
    elem_num := 0
    next_id := 0 }

/-- Wrapper `BLI_stack_new` (stack.c lines 126-128): default chunk size 1 << 16. -/
def BLI_stack_new (elem_size : Nat) : StackState :=
  BLI_stack_new_ex elem_size 65536

/-- Method `allocate_new_chunk` (stack.c lines 101-109).  If the free chain is
non-empty its head is popped and becomes `chunk_curr`, otherwise a fresh
zero-filled chunk of `elem_size * chunk_elem_max` bytes is allocated.  The
final statement `chunk_curr->next = nullptr` truncates the chain reachable
from `chunk_curr` to the single new chunk, so the previously current chain is
not linked behind the new head: it becomes unreachable (modelled by the old
`chunk_curr` list being discarded). -/
def allocate_new_chunk (s : StackState) : StackState :=
  match s.chunk_free with
  | c :: rest => { s with chunk_curr := [c], chunk_free := rest }
  | [] =>
      { s with
        chunk_curr := [⟨s.next_id, List.replicate (s.elem_size * s.chunk_elem_max) 0⟩]
        next_id := s.next_id + 1 }

/-- State effect of `push_r` (stack.c lines 41-48): `++chunk_index`; if it
equals `chunk_elem_max`, call `allocate_new_chunk` and reset `chunk_index`
to 0; then `elem_num++`.  The returned pointer is `get_last_elem`, modelled
separately. -/
def push_r_state (s : StackState) : StackState :=
  let ci := inc64 s.chunk_index
  let s1 :=
    if ci = s.chunk_elem_max then
      { allocate_new_chunk s with chunk_index := 0 }
    else
      { s with chunk_index := ci }
  { s1 with elem_num := inc64 s1.elem_num }

/-- Method `get_last_elem` (stack.c lines 97-99): the `elem_size` bytes at
offset `elem_size * chunk_index` in `chunk_curr`'s buffer; dereferencing a
null `chunk_curr` is `none`. -/
def get_last_elem (s : StackState) : Option (List Nat) :=
  match s.chunk_curr with
  | [] => none
  | c :: _ => some (List.take s.elem_size (List.drop (s.elem_size * s.chunk_index) c.data))

/-- Effect of `memcpy(dst + off, src, src.length)` inside a buffer `dst`. -/
def writeBytes (dst : List Nat) (off : Nat) (src : List Nat) : List Nat :=
  List.take off dst ++ src ++ List.drop (off + src.length) dst

/-- Method `push` (stack.c lines 50-53): `push_r` then copy `elem_size` bytes
from `src` into the returned slot (`src` is the caller buffer, of length
`elem_size`).  Writing through a null slot pointer is `none`. -/
def push (s : StackState) (src : List Nat) : Option StackState :=
  let s1 := push_r_state s
  match s1.chunk_curr with
  | [] => none
  | c :: rest =>
      some { s1 with
             chunk_curr :=
               { c with data := writeBytes c.data (s1.elem_size * s1.chunk_index) src } :: rest }

/-- Method `discard` (stack.c lines 64-73): `--chunk_index`; when it wraps to
`SIZE_MAX` the head chunk is moved from the active chain to the head of the
free chain, `chunk_curr` advances to its `next` (dereferencing null
`chunk_curr` is `none`), and `chunk_index` becomes `chunk_elem_max - 1`;
finally `elem_num--`. -/
def discard (s : StackState) : Option StackState :=
  let ci := dec64 s.chunk_index
  if ci = SIZE_MAX then
    match s.chunk_curr with
    | [] => none
    | old :: rest =>
        some { s with
               chunk_curr := rest
               chunk_free := old :: s.chunk_free
               chunk_index := dec64 s.chunk_elem_max
               elem_num := dec64 s.elem_num }
  else
    some { s with chunk_index := ci, elem_num := dec64 s.elem_num }

/-- Method `pop` (stack.c lines 55-58): copy the top element's bytes out
(`memcpy(dst, get_last_elem(), elem_size)`), then `discard`. -/
def pop (s : StackState) : Option (List Nat × StackState) :=
  match get_last_elem s with
  | none => none
  | some v =>
      match discard s with
      | none => none
      | some s1 => some (v, s1)

/-- Method `peek` (stack.c lines 60-62): returns `get_last_elem`. -/
def peek (s : StackState) : Option (List Nat) :=
  get_last_elem s

/-- Method `clear` (stack.c lines 75-90): reset `chunk_index` to
`chunk_elem_max - 1`; if the free chain is non-empty, walk to its last node
and append the active chain behind it (a no-op when the active chain is
empty), otherwise the free chain becomes the active chain; then
`chunk_curr = nullptr` and `elem_num = 0`. -/
def clear (s : StackState) : StackState :=
  let free2 :=
    match s.chunk_free, s.chunk_curr with
    | [], curr => curr
    | f, [] => f
    | f, curr => f ++ curr
  { s with
    chunk_curr := []
    chunk_free := free2
    chunk_index := dec64 s.chunk_elem_max
    elem_num := 0 }

/-- Method `count` (stack.c line 92). -/
def count (s : StackState) : Nat := s.elem_num

/-- Method `is_empty` (stack.c line 94). -/
def is_empty (s : StackState) : Bool := s.elem_num == 0

/-- One client operation: `BLI_stack_push` with a source buffer, or
`BLI_stack_pop` with the copied-out bytes dropped. -/
inductive StackOp where
  | push (src : List Nat) : StackOp
  | pop : StackOp
deriving DecidableEq

/-- Run a sequence of push/pop operations, propagating a null dereference as
`none`. -/
def runOps (s : StackState) : List StackOp → Option StackState
  | [] => some s
  | StackOp.push src :: rest =>
      match push s src with
      | none => none
      | some s1 => runOps s1 rest
  | StackOp.pop :: rest =>
      match pop s with
      | none => none
      | some (_, s1) => runOps s1 rest

/-- Composite operation described by the spec for `pop`: copy `elem_size`
bytes from `peek()` into the destination, then `discard()`. -/
def peek_then_discard (s : StackState) : Option (List Nat × StackState) :=
  match peek s, discard s with
  | some v, some s1 => some (v, s1)
  | _, _ => none

end BlenderStack

namespace BlenderStack

/-- C1: the LIFO claim fails across a chunk boundary.  With
`chunk_capacity = 2` and `elem_size = 1`, after pushing the bytes 1, 2, 3
the first pop returns 3, but the second pop — the stack still reports 2
live elements — dereferences a null `chunk_curr` (the chunk holding 1 and
2 was dropped when the third push allocated a new chunk), instead of
returning 2 as LIFO order requires. -/
theorem C1_lifo_cross_chunk_crash :
    (((runOps (BLI_stack_new_ex 1 2)
        [StackOp.push [1], StackOp.push [2], StackOp.push [3]]).bind pop).map
      (fun p => (p.1, count p.2)) = some ([3], 2)) ∧
    (((runOps (BLI_stack_new_ex 1 2)
        [StackOp.push [1], StackOp.push [2], StackOp.push [3]]).bind pop).bind
      (fun p => pop p.2) = none) := by
  decide

/-- C2: the chunk-filling push does not link the new chunk in front of the
previously current chunk.  With `chunk_capacity = 4`, `elem_size = 1`, after
the fifth push (the triggering one) the active chain is only the single
fresh chunk (id 1) holding the byte 5, the free chain is empty, and the
previously current chunk (id 0, holding 1, 2, 3, 4) is reachable from
neither list: it has been leaked rather than linked behind the new head. -/
theorem C2_trigger_push_drops_previous_chunk :
    runOps (BLI_stack_new_ex 1 4)
        [StackOp.push [1], StackOp.push [2], StackOp.push [3], StackOp.push [4],
         StackOp.push [5]] =
      some ⟨[⟨1, [5, 0, 0, 0]⟩], [], 0, 4, 1, 5, 2⟩ := by
  decide

/-- C3 counterexample: construction with `elem_size = 0` and
`chunk_capacity = 0` is not rejected; it produces a container (with
`chunk_index` wrapped to `SIZE_MAX`), so the claim that such construction
fails is false. -/
theorem C3_zero_args_counterexample :
    BLI_stack_new_ex 0 0 = ⟨[], [], SIZE_MAX, 0, 0, 0, 0⟩ := by
  decide

/-- C3 amended: construction performs no argument validation and never
fails; for every `elem_size` and `chunk_capacity`, including zero, it
produces an empty container (count 0, `is_empty` true, both chains null)
whose `chunk_index` is the `size_t` value `chunk_capacity - 1`
(so `SIZE_MAX` when `chunk_capacity = 0`). -/
theorem C3_construction_no_validation (es cs : Nat) :
    count (BLI_stack_new_ex es cs) = 0 ∧
    is_empty (BLI_stack_new_ex es cs) = true ∧
    (BLI_stack_new_ex es cs).chunk_curr = [] ∧
    (BLI_stack_new_ex es cs).chunk_free = [] ∧
    (BLI_stack_new_ex es cs).chunk_index = (cs + SIZE_MAX) % USIZE := by
  refine ⟨rfl, rfl, rfl, rfl, rfl⟩

/-- C6: the count claim fails because a pop permitted by the claim's
precondition crashes.  With `chunk_capacity = 4`, `elem_size = 1`: after 5
pushes the count is 5; after one pop the count is 4 (so neither pop is on an
empty stack); but the second pop dereferences a null `chunk_curr`, so the
sequence of 5 pushes and 2 pops never completes with count 3. -/
theorem C6_count_crash :
    ((runOps (BLI_stack_new_ex 1 4)
        [StackOp.push [1], StackOp.push [2], StackOp.push [3], StackOp.push [4],
         StackOp.push [5]]).map count = some 5) ∧
    ((runOps (BLI_stack_new_ex 1 4)
        [StackOp.push [1], StackOp.push [2], StackOp.push [3], StackOp.push [4],
         StackOp.push [5], StackOp.pop]).map count = some 4) ∧
    (runOps (BLI_stack_new_ex 1 4)
        [StackOp.push [1], StackOp.push [2], StackOp.push [3], StackOp.push [4],
         StackOp.push [5], StackOp.pop, StackOp.pop] = none) := by
  decide

/-- C7: the end-to-end scenario fails at the peek step.  With
`chunk_capacity = 4`, `elem_size = 4`, after pushing the 32-bit values
1..6 the count is 6; the first pop returns the bytes of 6 leaving count 5;
the second pop returns the bytes of 5 leaving count 4; but the following
peek dereferences a null `chunk_curr` (the chunk holding 1..4 was leaked
by the fifth push, and the second pop vacated the only remaining chunk)
instead of returning the bytes of 4. -/
theorem C7_scenario_crash :
    ((runOps (BLI_stack_new_ex 4 4)
        [StackOp.push [1, 0, 0, 0], StackOp.push [2, 0, 0, 0], StackOp.push [3, 0, 0, 0],
         StackOp.push [4, 0, 0, 0], StackOp.push [5, 0, 0, 0],
         StackOp.push [6, 0, 0, 0]]).map count = some 6) ∧
    (((runOps (BLI_stack_new_ex 4 4)
        [StackOp.push [1, 0, 0, 0], StackOp.push [2, 0, 0, 0], StackOp.push [3, 0, 0, 0],
         StackOp.push [4, 0, 0, 0], StackOp.push [5, 0, 0, 0],
         StackOp.push [6, 0, 0, 0]]).bind pop).map
       (fun p => (p.1, count p.2)) = some ([6, 0, 0, 0], 5)) ∧
    ((((runOps (BLI_stack_new_ex 4 4)
        [StackOp.push [1, 0, 0, 0], StackOp.push [2, 0, 0, 0], StackOp.push [3, 0, 0, 0],
         StackOp.push [4, 0, 0, 0], StackOp.push [5, 0, 0, 0],
         StackOp.push [6, 0, 0, 0]]).bind pop).bind (fun p => pop p.2)).map
       (fun p => (p.1, count p.2)) = some ([5, 0, 0, 0], 4)) ∧
    ((((runOps (BLI_stack_new_ex 4 4)
        [StackOp.push [1, 0, 0, 0], StackOp.push [2, 0, 0, 0], StackOp.push [3, 0, 0, 0],
         StackOp.push [4, 0, 0, 0], StackOp.push [5, 0, 0, 0],
         StackOp.push [6, 0, 0, 0]]).bind pop).bind (fun p => pop p.2)).bind
       (fun p => peek p.2) = none) := by
  decide

end BlenderStack

namespace BlenderStack

/-- Decrementing the `size_t` value 0 wraps to `SIZE_MAX`. -/
theorem dec64_zero : dec64 0 = SIZE_MAX := by decide

/-- Decrementing a positive representable `size_t` value subtracts one. -/
theorem dec64_of_pos (n : Nat) (h1 : 0 < n) (h2 : n < USIZE) : dec64 n = n - 1 := by
  unfold dec64 SIZE_MAX USIZE at *
  omega

/-- C4: on a stack whose current chunk exists (the head of the active chain)
and whose counters are representable, `discard` decrements `chunk_index`;
when the decrement underflows below 0 (`chunk_index = 0`), the head chunk is
unlinked from the active chain, pushed onto the head of the free chain,
`chunk_curr` advances to the next active chunk (null when the tail is
empty), and `chunk_index` is reset to `chunk_capacity - 1`; in all cases
`elem_count` decreases by exactly 1. -/
theorem C4_discard_spec (old : Chunk) (rest fr : List Chunk) (ci mx es n nid : Nat)
    (hn : 0 < n) (hn2 : n < USIZE) (hci : ci < USIZE) (hmx : 0 < mx)
    (hmx2 : mx < USIZE) :
    discard ⟨old :: rest, fr, ci, mx, es, n, nid⟩ =
      some (if ci = 0
            then ⟨rest, old :: fr, mx - 1, mx, es, n - 1, nid⟩
            else ⟨old :: rest, fr, ci - 1, mx, es, n - 1, nid⟩) := by
  have e1 : dec64 mx = mx - 1 := dec64_of_pos mx hmx hmx2
  have e2 : dec64 n = n - 1 := dec64_of_pos n hn hn2
  by_cases h : ci = 0
  · subst h
    simp [discard, dec64_zero, e1, e2]
  · have e3 : dec64 ci = ci - 1 := dec64_of_pos ci (Nat.pos_of_ne_zero h) hci
    have e4 : ci - 1 ≠ SIZE_MAX := by
      unfold SIZE_MAX USIZE at *
      omega
    simp [discard, e3, e4, h, e2]

/-- C4 witness: discarding the only element of a one-chunk stack with
`chunk_capacity = 1` moves the vacated chunk to the free chain and leaves
count 0. -/
theorem C4_discard_spec_witness :
    discard ⟨[⟨0, [7]⟩], [], 0, 1, 1, 1, 1⟩ = some ⟨[], [⟨0, [7]⟩], 0, 1, 1, 0, 1⟩ := by
  have h := C4_discard_spec ⟨0, [7]⟩ [] [] 0 1 1 1 1 (by decide) (by decide) (by decide)
    (by decide) (by decide)
  simpa using h

/-- C5: from every state (with representable positive `chunk_capacity`),
`clear` appends the whole active chain behind the existing free chain
(preserving previously freed chunks) and resets the stack to the empty
state: `chunk_curr = null`, `chunk_index = chunk_capacity - 1` (the initial
sentinel) and `elem_count = 0`; on an already-empty stack the count stays 0. -/
theorem C5_clear_spec (s : StackState) (hmx : 0 < s.chunk_elem_max)
    (hmx2 : s.chunk_elem_max < USIZE) :
    clear s =
      { s with
        chunk_curr := []
        chunk_free := s.chunk_free ++ s.chunk_curr
        chunk_index := s.chunk_elem_max - 1
        elem_num := 0 } := by
  obtain ⟨curr, fr, ci, mx, es, n, nid⟩ := s
  have e1 : dec64 mx = mx - 1 := dec64_of_pos mx hmx hmx2
  cases fr <;> cases curr <;> simp [clear, e1]

/-- C5 witness: clearing a stack with one active chunk and one already-free
chunk appends the active chunk behind the free one and zeroes the count. -/
theorem C5_clear_spec_witness :
    clear ⟨[⟨0, [1]⟩], [⟨1, [2]⟩], 0, 1, 1, 1, 2⟩ =
      ⟨[], [⟨1, [2]⟩, ⟨0, [1]⟩], 0, 1, 1, 0, 2⟩ := by
  have h := C5_clear_spec ⟨[⟨0, [1]⟩], [⟨1, [2]⟩], 0, 1, 1, 1, 2⟩ (by decide) (by decide)
  simpa using h

/-- C8: on every non-empty stack, `pop` is observationally the composite of
copying the bytes of `peek` out and then running `discard`: same bytes
delivered, same resulting state (including agreement on whether a null
dereference occurs). -/
theorem C8_pop_eq_peek_then_discard (s : StackState) (h : 0 < s.elem_num) :
    pop s = peek_then_discard s := by
  unfold pop peek_then_discard peek
  cases hg : get_last_elem s <;> cases hd : discard s <;> rfl

/-- C8 witness: the equivalence at a concrete one-element stack. -/
theorem C8_pop_eq_peek_then_discard_witness :
    pop ⟨[⟨0, [9]⟩], [], 0, 1, 1, 1, 1⟩ =
      peek_then_discard ⟨[⟨0, [9]⟩], [], 0, 1, 1, 1, 1⟩ :=
  C8_pop_eq_peek_then_discard ⟨[⟨0, [9]⟩], [], 0, 1, 1, 1, 1⟩ (by decide)

/-- C9: whenever a push triggers `allocate_new_chunk` (the incremented
cursor equals `chunk_elem_max`), the resulting current chunk's `next`
pointer is null, i.e. the active chain reachable from `chunk_curr` is
exactly one chunk long — whether the chunk was recycled from the free chain
or freshly allocated. -/
theorem C9_new_chunk_next_null (s : StackState)
    (h : inc64 s.chunk_index = s.chunk_elem_max) :
    (push_r_state s).chunk_curr.length = 1 := by
  cases hf : s.chunk_free <;> simp [push_r_state, allocate_new_chunk, h, hf]

/-- C9 witness: the first push on a freshly constructed stack triggers
allocation and leaves a one-chunk active chain. -/
theorem C9_new_chunk_next_null_witness :
    (push_r_state (BLI_stack_new_ex 1 4)).chunk_curr.length = 1 :=
  C9_new_chunk_next_null (BLI_stack_new_ex 1 4) (by decide)

/-- C10: `clear` is idempotent: from every state, clearing twice yields
exactly the state (`chunk_curr`, `chunk_free`, `chunk_index`, `elem_num`)
that clearing once yields. -/
theorem C10_clear_idempotent (s : StackState) : clear (clear s) = clear s := by
  obtain ⟨curr, fr, ci, mx, es, n, nid⟩ := s
  cases fr <;> cases curr <;> simp [clear]

end BlenderStack
